import Mathlib

set_option maxRecDepth 8000

/-! Shallow embedding of the tournament registration manager.
Validation engine from src/utils/validators.py; mutation services from
src/services/athlete_service.py; audit writer from
src/services/audit_service.py; the single-registration submission flow
from pages/4_Register.py.  Machine state (the two database tables, the
warning sink and fault-injection queues for the storage calls) is passed
explicitly as a `World` value. -/

/-- The apostrophe character as a string (used in error messages built
from Python f-strings). -/
def apos : String := String.singleton (Char.ofNat 39)

/-- Valid belt rank options (validators.py BELT_RANKS). -/
def BELT_RANKS : List String :=
  ["White", "Yellow", "Orange", "Green", "Blue", "Purple", "Brown",
   "Black 1st Dan", "Black 2nd Dan", "Black 3rd Dan", "Black 4th Dan", "Black 5th Dan"]

/-- Valid gender options (validators.py GENDERS). -/
def GENDERS : List String := ["Male", "Female"]

/-- Valid competition day options (validators.py COMPETITION_DAYS). -/
def COMPETITION_DAYS : List String := ["Day 1", "Day 2", "Both"]

/-- A calendar date (proleptic Gregorian, as Python datetime.date). -/
structure Date where
  year : Nat
  month : Nat
  day : Nat
deriving DecidableEq, Repr

def isLeap (y : Nat) : Bool := (y % 4 == 0 && y % 100 != 0) || y % 400 == 0

def monthLen (y m : Nat) : Nat :=
  if m == 2 then (if isLeap y then 29 else 28)
  else if m == 4 || m == 6 || m == 9 || m == 11 then 30
  else 31

def daysBeforeMonth (y m : Nat) : Nat :=
  (List.range (m - 1)).foldl (fun a i => a + monthLen y (i + 1)) 0

/-- Day number of a date (days since the epoch of the proleptic Gregorian
calendar); differences of this function agree with Python's
(date1 - date2).days. -/
def Date.rataDie (dt : Date) : Nat :=
  let y := dt.year - 1
  365 * y + y / 4 + y / 400 + daysBeforeMonth dt.year dt.month + dt.day - y / 100

/-- (today - dob).days in Python. -/
def daysBetween (today dob : Date) : Int :=
  (today.rataDie : Int) - (dob.rataDie : Int)

/-- Split a character list on the dash character (kernel-reducible stand-in
for String.splitOn used by the date parser). -/
def splitDash : List Char → List (List Char)
  | [] => [[]]
  | c :: cs =>
    if c == '-' then [] :: splitDash cs
    else
      match splitDash cs with
      | [] => [[c]]
      | x :: xs => (c :: x) :: xs

/-- Parse one numeric field of 1 to maxLen digits. -/
def parseField (l : List Char) (maxLen : Nat) : Option Nat :=
  if l.length == 0 || maxLen < l.length || !l.all Char.isDigit then none
  else some (l.foldl (fun a c => a * 10 + (c.toNat - 48)) 0)

/-- datetime.strptime(s, YYYY-MM-DD).date(): three dash-separated numeric
fields forming a valid calendar date. -/
def parseDate (s : String) : Option Date :=
  match splitDash s.toList with
  | [ys, ms, ds] =>
    match parseField ys 4, parseField ms 2, parseField ds 2 with
    | some y, some m, some d =>
      if 1 ≤ y && 1 ≤ m && m ≤ 12 && 1 ≤ d && d ≤ monthLen y m then
        some { year := y, month := m, day := d }
      else none
    | _, _, _ => none
  | _ => none

/-- Python str.strip(): drop whitespace at both ends (kernel-reducible
stand-in for String.trim). -/
def strTrim (s : String) : String :=
  String.mk (((s.toList.dropWhile Char.isWhitespace).reverse.dropWhile Char.isWhitespace).reverse)

/-- validators.validate_athlete_name. -/
def validate_athlete_name (name : String) : Bool × String :=
  if strTrim name == "" then (false, "Name is required")
  else if (strTrim name).length < 2 then (false, "Name must be at least 2 characters")
  else if (strTrim name).length > 100 then (false, "Name must be less than 100 characters")
  else (true, "")

/-- The age-range comparison of validators.validate_date_of_birth
(lines 81-85): age = (today - dob).days / 365.25, rejected when age < 3
or age > 100.  The Python float quotient days / 365.25 compares to the
integer literals 3 and 100 exactly as the rational quotient does: both
operands are exactly representable and the only boundary value a correctly
rounded quotient can land on exactly is 100 (at days = 36525), where the
float result is exact. -/
def dobAgeCheck (age : ℚ) : Bool × String :=
  if age < 3 then (false, "Athlete must be at least 3 years old")
  else if age > 100 then (false, "Invalid date of birth")
  else (true, "")

/-- validators.validate_date_of_birth, taking today's date explicitly
(Python reads date.today() ambiently).  A missing value models Python
None or empty string; the stored form is the YYYY-MM-DD string. -/
def validate_date_of_birth (today : Date) (dob : Option String) : Bool × String :=
  match dob with
  | Option.none => (false, "Date of birth is required")
  | Option.some s =>
    if s == "" then (false, "Date of birth is required")
    else
      match parseDate s with
      | Option.none => (false, "Invalid date format (use YYYY-MM-DD)")
      | Option.some dt =>
        if daysBetween today dt ≤ 0 then (false, "Date of birth must be in the past")
        else dobAgeCheck ((daysBetween today dt : ℚ) / 365.25)

/-- A weight field value: absent (None or empty string), a number, or a
value float() rejects. -/
inductive WeightVal where
  | none
  | num (q : ℚ)
  | notNum
deriving DecidableEq, Repr

/-- validators.validate_weight. -/
def validate_weight (weight : WeightVal) : Bool × String :=
  match weight with
  | .none => (true, "")
  | .notNum => (false, "Weight must be a number")
  | .num q =>
    if q < 10 || q > 200 then (false, "Weight must be between 10 and 200 kg")
    else (true, "")

/-- validators.validate_gender. -/
def validate_gender (gender : String) : Bool × String :=
  if gender == "" then (false, "Gender is required")
  else if !GENDERS.contains gender then
    (false, "Gender must be one of: " ++ String.intercalate ", " GENDERS)
  else (true, "")

/-- validators.validate_belt_rank. -/
def validate_belt_rank (belt : String) : Bool × String :=
  if belt == "" then (false, "Belt rank is required")
  else if !BELT_RANKS.contains belt then (false, "Invalid belt rank")
  else (true, "")

/-- validators.validate_competition_day. -/
def validate_competition_day (day : String) : Bool × String :=
  if day == "" then (false, "Competition day is required")
  else if !COMPETITION_DAYS.contains day then
    (false, "Competition day must be one of: " ++ String.intercalate ", " COMPETITION_DAYS)
  else (true, "")

/-- validators.validate_events. -/
def validate_events (kata kumite : Bool) : Bool × String :=
  if !kata && !kumite then
    (false, "At least one event (Kata or Kumite) must be selected")
  else (true, "")

/-- One athlete record as submitted to validation / registration
(the athlete_data dict). -/
structure AthleteInput where
  full_name : String
  date_of_birth : Option String
  gender : String
  belt_rank : String
  weight_kg : WeightVal
  competition_day : String
  kata_event : Bool
  kumite_event : Bool
deriving DecidableEq, Repr

/-- The validations list of validators.validate_athlete_data: the seven
field checks, in source order. -/
def athleteChecks (today : Date) (d : AthleteInput) : List (Bool × String) :=
  [validate_athlete_name d.full_name,
   validate_date_of_birth today d.date_of_birth,
   validate_gender d.gender,
   validate_belt_rank d.belt_rank,
   validate_weight d.weight_kg,
   validate_competition_day d.competition_day,
   validate_events d.kata_event d.kumite_event]

/-- validators.validate_athlete_data: collect the message of every failing
check; valid iff the error list is empty. -/
def validate_athlete_data (today : Date) (d : AthleteInput) : Bool × List String :=
  let errors := ((athleteChecks today d).filter (fun v => !v.1)).map (fun v => v.2)
  (errors.isEmpty, errors)

/-- Integer form of the age-range comparison: days / 365.25 < 3 iff
4 * days < 4383, and days / 365.25 > 100 iff 4 * days > 146100. -/
lemma dobAgeCheck_int (d : Int) :
    dobAgeCheck ((d : ℚ) / 365.25) =
      if 4 * d < 4383 then (false, "Athlete must be at least 3 years old")
      else if 146100 < 4 * d then (false, "Invalid date of birth")
      else (true, "") := by
  have h365 : (365.25 : ℚ) = 1461 / 4 := by norm_num
  have h1 : ((d : ℚ) / 365.25 < 3) ↔ (4 * d < 4383) := by
    rw [h365, div_lt_iff₀ (by norm_num)]
    constructor
    · intro h
      have : (4 * d : ℚ) < 4383 := by linarith
      exact_mod_cast this
    · intro h
      have : ((4 * d : Int) : ℚ) < ((4383 : Int) : ℚ) := by exact_mod_cast h
      push_cast at this
      linarith
  have h2 : ((100 : ℚ) < (d : ℚ) / 365.25) ↔ (146100 < 4 * d) := by
    rw [h365, lt_div_iff₀ (by norm_num)]
    constructor
    · intro h
      have : (146100 : ℚ) < 4 * d := by linarith
      exact_mod_cast this
    · intro h
      have : ((146100 : Int) : ℚ) < ((4 * d : Int) : ℚ) := by exact_mod_cast h
      push_cast at this
      linarith
  unfold dobAgeCheck
  by_cases hlt : (4 : Int) * d < 4383
  · rw [if_pos (h1.mpr hlt), if_pos hlt]
  · rw [if_neg (fun h => hlt (h1.mp h)), if_neg hlt]
    by_cases hgt : (146100 : Int) < 4 * d
    · rw [if_pos (gt_iff_lt.mpr (h2.mpr hgt)), if_pos hgt]
    · rw [if_neg (fun h => hgt (h2.mp (gt_iff_lt.mp h))), if_neg hgt]

/-- validate_date_of_birth on a present string, with the age comparison
rewritten to kernel-reducible integer arithmetic. -/
lemma validate_dob_eval (today : Date) (s : String) :
    validate_date_of_birth today (some s) =
      if s == "" then (false, "Date of birth is required")
      else
        match parseDate s with
        | Option.none => (false, "Invalid date format (use YYYY-MM-DD)")
        | Option.some dt =>
          if daysBetween today dt ≤ 0 then (false, "Date of birth must be in the past")
          else if 4 * daysBetween today dt < 4383 then (false, "Athlete must be at least 3 years old")
          else if 146100 < 4 * daysBetween today dt then (false, "Invalid date of birth")
          else (true, "") := by
  unfold validate_date_of_birth
  by_cases he : s == ""
  · simp [he]
  · simp only [he, if_false, Bool.false_eq_true]
    cases hp : parseDate s with
    | none => simp
    | some dt =>
      by_cases hd : daysBetween today dt ≤ 0
      · simp [hd]
      · simp [hd, dobAgeCheck_int]

/-- Python truthiness of an optional string (None and the empty string are
falsy). -/
def truthyS : Option String → Bool
  | Option.none => false
  | Option.some s => !(s == "")

/-- Lower-casing, character by character (str.lower()). -/
def strLower (s : String) : String := String.mk (s.toList.map Char.toLower)

/-- Is pat a leading segment of l. -/
def charsStartWith : List Char → List Char → Bool
  | [], _ => true
  | _ :: _, [] => false
  | p :: ps, c :: cs => (p == c) && charsStartWith ps cs

/-- Does l contain pat as a contiguous segment. -/
def charsContain : List Char → List Char → Bool
  | [], pat => pat.isEmpty
  | c :: cs, pat => charsStartWith pat (c :: cs) || charsContain cs pat

/-- Python's `pat in s` substring test. -/
def strContains (s pat : String) : Bool := charsContain s.toList pat.toList

/-- The authenticated actor: st.session_state plus
get_current_user / get_current_coach. -/
structure User where
  id : String
  email : String
deriving DecidableEq, Repr

/-- The coach profile row consumed by the services: coach.get('dojo_id')
and coach.get('dojos', {}).get('name'). -/
structure Coach where
  dojo_id : Option String
  dojo_name : Option String
deriving DecidableEq, Repr

/-- Ambient session context: presence of st.session_state.session, and the
current user and coach profile. -/
structure Ctx where
  hasSession : Bool
  user : Option User
  coach : Option Coach
deriving DecidableEq, Repr

/-- The data dict built by register_athlete / bulk_register_athletes and
inserted into the athletes table. -/
structure InsertData where
  coach_id : String
  dojo_id : String
  full_name : String
  date_of_birth : Option String
  gender : String
  belt_rank : String
  weight_kg : WeightVal
  competition_day : String
  kata_event : Bool
  kumite_event : Bool
deriving DecidableEq, Repr

/-- A stored athlete row: system-assigned id plus the inserted data and the
updated_at stamp (absent until the first update). -/
structure AthleteRow where
  id : Nat
  data : InsertData
  updated_at : Option String
deriving DecidableEq, Repr

/-- A partial field set submitted to update_athlete, plus the updated_at
stamp the service adds. -/
structure UpdateFields where
  full_name : Option String
  gender : Option String
  belt_rank : Option String
  weight_kg : Option WeightVal
  competition_day : Option String
  kata_event : Option Bool
  kumite_event : Option Bool
  updated_at : Option String
deriving DecidableEq, Repr

/-- The athlete_data payload of an audit entry: full data dict for
REGISTER, full pre-delete row for DELETE, athlete_id plus changes for
UPDATE, count plus names for BULK_REGISTER. -/
inductive AuditPayload where
  | registerData (d : InsertData)
  | row (r : AthleteRow)
  | updateChanges (athlete_id : Nat) (changes : UpdateFields)
  | bulk (count : Nat) (athletes : List String)
deriving DecidableEq, Repr

/-- One audit_logs row (audit_service.create_audit_log log_entry). -/
structure AuditEntry where
  action : String
  athlete_data : AuditPayload
  coach_id : String
  coach_email : String
  dojo_name : String
deriving DecidableEq, Repr

/-- Outcome of one storage write call: normal, empty response data, or a
raised exception carrying a message. -/
inductive CallOutcome where
  | ok
  | emptyData
  | raise (msg : String)
deriving DecidableEq, Repr

/-- Explicit machine state: the athletes and audit_logs tables, the id
counter, fault-injection queues consumed call-by-call by storage selects
(athletes queries), storage writes (athlete insert/update/delete) and
audit inserts, and the sink of operator-visible warnings (st.error /
printed warnings).  An empty queue means every call succeeds. -/
structure World where
  athletes : List AthleteRow
  audits : List AuditEntry
  nextId : Nat
  selectFaults : List (Option String)
  writeFaults : List CallOutcome
  auditFaults : List CallOutcome
  warnings : List String
deriving DecidableEq, Repr

def World.popSelect (w : World) : Option String × World :=
  match w.selectFaults with
  | [] => (Option.none, w)
  | f :: rest => (f, { w with selectFaults := rest })

def World.popWrite (w : World) : CallOutcome × World :=
  match w.writeFaults with
  | [] => (CallOutcome.ok, w)
  | f :: rest => (f, { w with writeFaults := rest })

def World.popAudit (w : World) : CallOutcome × World :=
  match w.auditFaults with
  | [] => (CallOutcome.ok, w)
  | f :: rest => (f, { w with auditFaults := rest })

/-- audit_service.create_audit_log: append one immutable entry; on any
failure return false without raising, printing a warning when an exception
was caught. -/
def create_audit_log (ctx : Ctx) (action : String) (athlete_data : AuditPayload)
    (coach_id coach_email dojo_name : String) (w : World) : Bool × World :=
  if !ctx.hasSession then (false, w)
  else
    let (f, w1) := w.popAudit
    match f with
    | CallOutcome.ok =>
      let entry : AuditEntry :=
        { action := action, athlete_data := athlete_data, coach_id := coach_id,
          coach_email := coach_email, dojo_name := dojo_name }
      (true, { w1 with audits := w1.audits ++ [entry] })
    | CallOutcome.emptyData => (false, w1)
    | CallOutcome.raise msg =>
      (false, { w1 with warnings := w1.warnings ++ ["Warning: Failed to create audit log: " ++ msg] })

/-- The row predicate of the duplicate query: stored full_name equals the
trimmed input name, same date_of_birth, and, when dojo_id is truthy, the
same dojo. -/
def dupQueryMatch (full_name : String) (date_of_birth : Option String)
    (dojo_id : Option String) (r : AthleteRow) : Bool :=
  r.data.full_name == strTrim full_name && r.data.date_of_birth == date_of_birth &&
    (!truthyS dojo_id || r.data.dojo_id == dojo_id.getD "")

/-- athlete_service.check_duplicate_athlete: no session gives false; a
raised query error is reported via st.error and gives false; otherwise
true iff some stored row matches. -/
def check_duplicate_athlete (ctx : Ctx) (full_name : String) (date_of_birth : Option String)
    (dojo_id : Option String) (w : World) : Bool × World :=
  if !ctx.hasSession then (false, w)
  else
    let (f, w1) := w.popSelect
    match f with
    | Option.some msg =>
      (false, { w1 with warnings := w1.warnings ++ ["Error checking duplicate: " ++ msg] })
    | Option.none =>
      (w1.athletes.any (dupQueryMatch full_name date_of_birth dojo_id), w1)

/-- Modelled from the claim (C5): a live athlete with the same trimmed
name and the same date of birth exists, the dojo filter being applied
exactly when a dojo id is present (truthy). -/
def specDuplicateExists (rows : List AthleteRow) (full_name : String)
    (date_of_birth : Option String) (dojo_id : Option String) : Bool :=
  rows.any (fun r =>
    r.data.full_name == strTrim full_name && r.data.date_of_birth == date_of_birth &&
      (!truthyS dojo_id || r.data.dojo_id == dojo_id.getD ""))

/-- The data dict register_athlete / bulk_register_athletes build before
the insert: actor ids plus the submitted fields, name trimmed. -/
def mkInsertData (user : User) (dojo : String) (ad : AthleteInput) : InsertData :=
  { coach_id := user.id, dojo_id := dojo, full_name := strTrim ad.full_name,
    date_of_birth := ad.date_of_birth, gender := ad.gender, belt_rank := ad.belt_rank,
    weight_kg := ad.weight_kg, competition_day := ad.competition_day,
    kata_event := ad.kata_event, kumite_event := ad.kumite_event }

/-- Result dict of register_athlete and update_athlete: success with the
stored row, or failure with an error message. -/
inductive OpResult where
  | success (athlete : AthleteRow)
  | failure (error : String)
deriving DecidableEq, Repr

/-- The duplicate-error message of register_athlete's application-level
pre-check. -/
def dupPrecheckMsg (name : String) : String :=
  "Athlete " ++ apos ++ name ++ apos ++ " with this date of birth already exists in your dojo."

/-- The duplicate-error message of register_athlete's storage-constraint
backstop. -/
def dupBackstopMsg (name : String) : String :=
  "Athlete " ++ apos ++ name ++ apos ++ " already exists."

/-- athlete_service.register_athlete. -/
def register_athlete (ctx : Ctx) (ad : AthleteInput) (w : World) : OpResult × World :=
  match ctx.user, ctx.coach with
  | Option.some user, Option.some coach =>
    if !truthyS coach.dojo_id then (OpResult.failure "No dojo associated with your account", w)
    else
      let dojo := coach.dojo_id.getD ""
      let (isDup, w1) := check_duplicate_athlete ctx ad.full_name ad.date_of_birth (some dojo) w
      if isDup then (OpResult.failure (dupPrecheckMsg ad.full_name), w1)
      else if !ctx.hasSession then (OpResult.failure "Not authenticated", w1)
      else
        let data := mkInsertData user dojo ad
        let (f, w2) := w1.popWrite
        match f with
        | CallOutcome.ok =>
          let row : AthleteRow := { id := w2.nextId, data := data, updated_at := Option.none }
          let w3 := { w2 with athletes := w2.athletes ++ [row], nextId := w2.nextId + 1 }
          let w4 := (create_audit_log ctx "REGISTER" (AuditPayload.registerData data)
            user.id user.email (coach.dojo_name.getD "Unknown") w3).2
          (OpResult.success row, w4)
        | CallOutcome.emptyData => (OpResult.failure "Failed to register athlete", w2)
        | CallOutcome.raise msg =>
          if strContains (strLower msg) "duplicate key" || strContains (strLower msg) "unique constraint" then
            (OpResult.failure (dupBackstopMsg ad.full_name), w2)
          else (OpResult.failure msg, w2)
  | _, _ => (OpResult.failure "Not authenticated", w)

/-- One entry of the per-item results list of bulk_register_athletes. -/
structure BulkItem where
  name : String
  success : Bool
  error : Option String
deriving DecidableEq, Repr

/-- Result dict of bulk_register_athletes: an early failure, or the
success summary with per-item results. -/
inductive BulkResult where
  | failure (error : String)
  | summary (successful failed : Nat) (results : List BulkItem)
deriving DecidableEq, Repr

def bulkCounts : BulkResult → Option (Nat × Nat)
  | BulkResult.failure _ => Option.none
  | BulkResult.summary s f _ => Option.some (s, f)

/-- One iteration of the bulk_register_athletes loop: duplicate check,
then insert, accumulating the per-item result and counters. -/
def bulkStep (ctx : Ctx) (user : User) (dojo : String)
    (acc : List BulkItem × Nat × Nat × World) (ad : AthleteInput) :
    List BulkItem × Nat × Nat × World :=
  let results := acc.1
  let successful := acc.2.1
  let failed := acc.2.2.1
  let w := acc.2.2.2
  let (isDup, w1) := check_duplicate_athlete ctx ad.full_name ad.date_of_birth (some dojo) w
  if isDup then
    (results ++ [{ name := ad.full_name, success := false, error := some "Duplicate - already exists" }],
     successful, failed + 1, w1)
  else
    let data := mkInsertData user dojo ad
    let (f, w2) := w1.popWrite
    match f with
    | CallOutcome.ok =>
      let row : AthleteRow := { id := w2.nextId, data := data, updated_at := Option.none }
      (results ++ [{ name := ad.full_name, success := true, error := Option.none }],
       successful + 1, failed,
       { w2 with athletes := w2.athletes ++ [row], nextId := w2.nextId + 1 })
    | CallOutcome.emptyData =>
      (results ++ [{ name := ad.full_name, success := false, error := some "Insert failed" }],
       successful, failed + 1, w2)
    | CallOutcome.raise msg =>
      (results ++ [{ name := ad.full_name, success := false, error := some msg }],
       successful, failed + 1, w2)

/-- athlete_service.bulk_register_athletes: per record a duplicate check
and an insert (no validation happens here); afterwards one BULK_REGISTER
audit entry when at least one record succeeded. -/
def bulk_register_athletes (ctx : Ctx) (batch : List AthleteInput) (w : World) :
    BulkResult × World :=
  match ctx.user, ctx.coach with
  | Option.some user, Option.some coach =>
    let dojo_name := coach.dojo_name.getD "Unknown"
    if !truthyS coach.dojo_id then (BulkResult.failure "No dojo associated with your account", w)
    else if !ctx.hasSession then (BulkResult.failure "Not authenticated", w)
    else
      let dojo := coach.dojo_id.getD ""
      let r := batch.foldl (bulkStep ctx user dojo) ([], 0, 0, w)
      let results := r.1
      let successful := r.2.1
      let failed := r.2.2.1
      let w1 := r.2.2.2
      let w2 :=
        if 0 < successful then
          (create_audit_log ctx "BULK_REGISTER"
            (AuditPayload.bulk successful ((results.filter (fun i => i.success)).map (fun i => i.name)))
            user.id user.email dojo_name w1).2
        else w1
      (BulkResult.summary successful failed results, w2)
  | _, _ => (BulkResult.failure "Not authenticated", w)

/-- Apply an update dict to a stored row (the storage engine's column
update). -/
def applyUpdate (r : AthleteRow) (u : UpdateFields) : AthleteRow :=
  { r with
    data := { r.data with
      full_name := u.full_name.getD r.data.full_name,
      gender := u.gender.getD r.data.gender,
      belt_rank := u.belt_rank.getD r.data.belt_rank,
      weight_kg := u.weight_kg.getD r.data.weight_kg,
      competition_day := u.competition_day.getD r.data.competition_day,
      kata_event := u.kata_event.getD r.data.kata_event,
      kumite_event := u.kumite_event.getD r.data.kumite_event },
    updated_at := u.updated_at }

/-- athlete_service.update_athlete, with the utcnow timestamp passed
explicitly. -/
def update_athlete (ctx : Ctx) (now : String) (athlete_id : Nat) (updated_data : UpdateFields)
    (w : World) : OpResult × World :=
  match ctx.user, ctx.coach with
  | Option.some user, Option.some coach =>
    if !ctx.hasSession then (OpResult.failure "Not authenticated", w)
    else
      let stamped := { updated_data with updated_at := some now }
      let (f, w1) := w.popWrite
      match f with
      | CallOutcome.raise msg => (OpResult.failure msg, w1)
      | CallOutcome.emptyData => (OpResult.failure "Update failed", w1)
      | CallOutcome.ok =>
        match w1.athletes.filter (fun r => r.id == athlete_id) with
        | [] => (OpResult.failure "Update failed", w1)
        | r :: _ =>
          let newRows := w1.athletes.map (fun x => if x.id == athlete_id then applyUpdate x stamped else x)
          let w2 := { w1 with athletes := newRows }
          let w3 := (create_audit_log ctx "UPDATE" (AuditPayload.updateChanges athlete_id stamped)
            user.id user.email (coach.dojo_name.getD "Unknown") w2).2
          (OpResult.success (applyUpdate r stamped), w3)
  | _, _ => (OpResult.failure "Not authenticated", w)

/-- Result dict of delete_athlete. -/
inductive DelResult where
  | ok
  | failure (error : String)
deriving DecidableEq, Repr

/-- athlete_service.delete_athlete: fetch the row for the audit snapshot,
fail with not-found when absent, otherwise delete and write the DELETE
audit entry carrying the pre-delete row. -/
def delete_athlete (ctx : Ctx) (athlete_id : Nat) (_athlete_name : String) (w : World) :
    DelResult × World :=
  match ctx.user, ctx.coach with
  | Option.some user, Option.some coach =>
    if !ctx.hasSession then (DelResult.failure "Not authenticated", w)
    else
      let (sf, w1) := w.popSelect
      match sf with
      | Option.some msg => (DelResult.failure msg, w1)
      | Option.none =>
        match w1.athletes.filter (fun r => r.id == athlete_id) with
        | [] => (DelResult.failure "Athlete not found", w1)
        | row :: _ =>
          let (f, w2) := w1.popWrite
          match f with
          | CallOutcome.raise msg => (DelResult.failure msg, w2)
          | _ =>
            let w3 := { w2 with athletes := w2.athletes.filter (fun r => !(r.id == athlete_id)) }
            let w4 := (create_audit_log ctx "DELETE" (AuditPayload.row row)
              user.id user.email (coach.dojo_name.getD "Unknown") w3).2
            (DelResult.ok, w4)
  | _, _ => (DelResult.failure "Not authenticated", w)

/-- Result of the single-registration form submission. -/
inductive FlowResult where
  | invalid (errors : List String)
  | duplicate (error : String)
  | registered (athlete : AthleteRow)
  | failed (error : String)
deriving DecidableEq, Repr

/-- The duplicate message st.error shows in the Register page. -/
def pageDupMsg (name : String) : String :=
  "⚠️ An athlete named " ++ apos ++ name ++ apos ++
    " with this date of birth already exists in your dojo."

/-- The single-entry submission flow of pages/4_Register.py: validate,
then page-level duplicate check, then register_athlete. -/
def single_registration_flow (ctx : Ctx) (today : Date) (ad : AthleteInput) (w : World) :
    FlowResult × World :=
  let v := validate_athlete_data today ad
  if !v.1 then (FlowResult.invalid v.2, w)
  else
    let dojo_id := match ctx.coach with
      | Option.some c => c.dojo_id
      | Option.none => Option.none
    let (isDup, w1) := check_duplicate_athlete ctx ad.full_name ad.date_of_birth dojo_id w
    if isDup then (FlowResult.duplicate (pageDupMsg ad.full_name), w1)
    else
      match register_athlete ctx ad w1 with
      | (OpResult.success row, w2) => (FlowResult.registered row, w2)
      | (OpResult.failure e, w2) => (FlowResult.failed e, w2)

/-- The object-level duplicate query predicate and the claim-level one
coincide. -/
lemma specDup_eq (rows : List AthleteRow) (n : String) (d dj : Option String) :
    rows.any (dupQueryMatch n d dj) = specDuplicateExists rows n d dj := rfl

/-- Concrete fixtures used by the witness theorems. -/
def d2025 : Date := { year := 2025, month := 1, day := 1 }

def u0 : User := { id := "coach-1", email := "coach1@example.com" }

def c0 : Coach := { dojo_id := some "D1", dojo_name := some "Dojo One" }

def ctx0 : Ctx := { hasSession := true, user := some u0, coach := some c0 }

def emptyWorld : World :=
  { athletes := [], audits := [], nextId := 1, selectFaults := [], writeFaults := [],
    auditFaults := [], warnings := [] }

def adA : AthleteInput :=
  { full_name := "Ann Lee", date_of_birth := some "2012-03-01", gender := "Female",
    belt_rank := "Green", weight_kg := .none, competition_day := "Day 1",
    kata_event := true, kumite_event := false }

def adBad : AthleteInput :=
  { full_name := "", date_of_birth := some "2012-03-01", gender := "Unknown",
    belt_rank := "Green", weight_kg := .none, competition_day := "Day 1",
    kata_event := false, kumite_event := false }

/-- C3: validate_athlete_data runs all seven field checks regardless of
earlier failures, collects one error string per failing check (so a record
violating N independent rules yields at least N errors, each failing
check's message appearing in the list), and reports valid exactly when the
error list is empty. -/
theorem C3_validation_aggregates (today : Date) (d : AthleteInput) :
    (athleteChecks today d).length = 7
    ∧ ((validate_athlete_data today d).1 = true ↔ (validate_athlete_data today d).2 = [])
    ∧ (validate_athlete_data today d).2.length
        = ((athleteChecks today d).filter (fun c => !c.1)).length
    ∧ ∀ c ∈ athleteChecks today d, c.1 = false → c.2 ∈ (validate_athlete_data today d).2 := by
  refine ⟨rfl, ?_, ?_, ?_⟩
  · simp [validate_athlete_data]
  · simp [validate_athlete_data]
  · intro c hc hfail
    simp only [validate_athlete_data]
    exact List.mem_map.mpr ⟨c, List.mem_filter.mpr ⟨hc, by simp [hfail]⟩, rfl⟩

/-- Witness for C3 at a record violating three independent rules (name,
gender, event selection): the error list has one entry per failing check
and contains the gender message. -/
theorem C3_validation_aggregates_witness :
    ((validate_athlete_data d2025 adBad).2.length
        = ((athleteChecks d2025 adBad).filter (fun c => !c.1)).length)
    ∧ "Gender must be one of: Male, Female" ∈ (validate_athlete_data d2025 adBad).2 := by
  refine ⟨(C3_validation_aggregates d2025 adBad).2.2.1, ?_⟩
  have h := (C3_validation_aggregates d2025 adBad).2.2.2 (validate_gender adBad.gender)
    (by simp [athleteChecks]) (by decide)
  have hg : (validate_gender adBad.gender).2 = "Gender must be one of: Male, Female" := by decide
  rw [hg] at h
  exact h

/-- C4 counterexample: a date of birth exactly 36525 days before today has
age exactly 100.0 years under the source's formula, yet
validate_date_of_birth accepts it, so ages of exactly 100.0 years are not
rejected. -/
theorem C4_dob_boundary_counterexample :
    daysBetween d2025 { year := 1925, month := 1, day := 1 } = 36525
    ∧ ((36525 : ℚ) / 365.25) = 100
    ∧ validate_date_of_birth d2025 (some "1925-01-01") = (true, "") := by
  refine ⟨by decide, by norm_num, ?_⟩
  rw [validate_dob_eval]
  decide

/-- Integer characterization of age at least 3: days / 365.25 is at least
3 iff 4 * days is at least 4383. -/
lemma age_ge3_iff (d : Int) : (3 ≤ (d : ℚ) / 365.25) ↔ 4383 ≤ 4 * d := by
  rw [le_div_iff₀ (by norm_num : (0 : ℚ) < 365.25)]
  constructor
  · intro h
    have h4 : ((4383 : Int) : ℚ) ≤ ((4 * d : Int) : ℚ) := by push_cast; nlinarith
    exact_mod_cast h4
  · intro h
    have h4 : ((4383 : Int) : ℚ) ≤ ((4 * d : Int) : ℚ) := by exact_mod_cast h
    push_cast at h4
    nlinarith

/-- Integer characterization of age at most 100: days / 365.25 is at most
100 iff 4 * days is at most 146100. -/
lemma age_le100_iff (d : Int) : ((d : ℚ) / 365.25 ≤ 100) ↔ 4 * d ≤ 146100 := by
  rw [div_le_iff₀ (by norm_num : (0 : ℚ) < 365.25)]
  constructor
  · intro h
    have h4 : ((4 * d : Int) : ℚ) ≤ ((146100 : Int) : ℚ) := by push_cast; nlinarith
    exact_mod_cast h4
  · intro h
    have h4 : ((4 * d : Int) : ℚ) ≤ ((146100 : Int) : ℚ) := by exact_mod_cast h
    push_cast at h4
    nlinarith

/-- C4 (amended): the date-of-birth age window is inclusive at both ends.
The check accepts age exactly 3.0, rejects age 2.99, accepts age exactly
100.0, and rejects only ages strictly greater than 100; on a parsed
past date the validator accepts exactly when the age
(today - dob).days / 365.25 lies in the closed interval from 3 to 100. -/
theorem C4_dob_boundaries_amended :
    (∀ age : ℚ, (dobAgeCheck age).1 = true ↔ 3 ≤ age ∧ age ≤ 100)
    ∧ (dobAgeCheck (299 / 100 : ℚ)).1 = false
    ∧ (∀ today dt s, parseDate s = some dt → 0 < daysBetween today dt →
        ((validate_date_of_birth today (some s)).1 = true
          ↔ 3 ≤ ((daysBetween today dt : ℚ) / 365.25)
            ∧ ((daysBetween today dt : ℚ) / 365.25) ≤ 100)) := by
  refine ⟨?_, ?_, ?_⟩
  · intro age
    unfold dobAgeCheck
    split_ifs with h1 h2
    · simp only [Bool.false_eq_true, false_iff]
      intro hc
      linarith [hc.1]
    · simp only [Bool.false_eq_true, false_iff]
      intro hc
      linarith [hc.2, gt_iff_lt.mp h2]
    · simp only [true_iff]
      exact ⟨le_of_not_lt h1, le_of_not_lt (gt_iff_lt.not.mp h2)⟩
  · norm_num [dobAgeCheck]
  · intro today dt s hp hd
    have hs : (s == "") = false := by
      cases h : s == "" with
      | false => rfl
      | true =>
        exfalso
        have he : s = "" := eq_of_beq h
        subst he
        have hn : parseDate "" = Option.none := by decide
        rw [hn] at hp
        exact Option.noConfusion hp
    rw [validate_dob_eval, hs]
    simp only [Bool.false_eq_true, if_false]
    rw [hp]
    have hnle : ¬(daysBetween today dt ≤ 0) := not_le.mpr hd
    simp only [hnle, if_false]
    split_ifs with h1 h2
    · simp only [Bool.false_eq_true, false_iff]
      intro hc
      have := (age_ge3_iff (daysBetween today dt)).mp hc.1
      omega
    · simp only [Bool.false_eq_true, false_iff]
      intro hc
      have := (age_le100_iff (daysBetween today dt)).mp hc.2
      omega
    · simp only [true_iff]
      exact ⟨(age_ge3_iff (daysBetween today dt)).mpr (by omega),
             (age_le100_iff (daysBetween today dt)).mpr (by omega)⟩

/-- Witness for C4 (amended): age exactly 3.0 is accepted, and a concrete
parsed past date of birth with in-range age is accepted. -/
theorem C4_dob_boundaries_amended_witness :
    (dobAgeCheck 3).1 = true
    ∧ (validate_date_of_birth d2025 (some "1925-01-01")).1 = true := by
  constructor
  · exact (C4_dob_boundaries_amended.1 3).mpr (by norm_num)
  · refine (C4_dob_boundaries_amended.2.2 d2025 { year := 1925, month := 1, day := 1 }
      "1925-01-01" (by decide) (by decide)).mpr ?_
    rw [show daysBetween d2025 { year := 1925, month := 1, day := 1 } = 36525 from by decide]
    norm_num

/-- C10: the duplicate check fails open.  With no session it returns false
without touching storage; when the storage query raises, the error is
shown and it returns false; consequently a registration attempted while
the duplicate query fails proceeds to the insert and succeeds even though
a matching duplicate row exists. -/
theorem C10_duplicate_check_fails_open :
    (∀ ou oc n d dj ath aud nid sf wf af wl,
      check_duplicate_athlete { hasSession := false, user := ou, coach := oc } n d dj
          ⟨ath, aud, nid, sf, wf, af, wl⟩
        = (false, ⟨ath, aud, nid, sf, wf, af, wl⟩))
    ∧ (∀ ou oc n d dj msg rest ath aud nid wf af wl,
      check_duplicate_athlete { hasSession := true, user := ou, coach := oc } n d dj
          ⟨ath, aud, nid, Option.some msg :: rest, wf, af, wl⟩
        = (false, ⟨ath, aud, nid, rest, wf, af, wl ++ ["Error checking duplicate: " ++ msg]⟩))
    ∧ (∀ u dn D ad ath aud nid af wl msg,
      truthyS (some D) = true →
      specDuplicateExists ath ad.full_name ad.date_of_birth (some D) = true →
      (register_athlete
          { hasSession := true, user := some u, coach := some { dojo_id := some D, dojo_name := dn } }
          ad ⟨ath, aud, nid, [Option.some msg], [], af, wl⟩).1
        = OpResult.success { id := nid, data := mkInsertData u D ad, updated_at := Option.none }) := by
  refine ⟨?_, ?_, ?_⟩
  · intro ou oc n d dj ath aud nid sf wf af wl
    simp [check_duplicate_athlete]
  · intro ou oc n d dj msg rest ath aud nid wf af wl
    simp [check_duplicate_athlete, World.popSelect]
  · intro u dn D ad ath aud nid af wl msg hD hdup
    simp [register_athlete, check_duplicate_athlete, World.popSelect, World.popWrite, hD]

/-- Witness for C10: a concrete world with an exact duplicate on file and
a failing duplicate query still registers the athlete. -/
theorem C10_duplicate_check_fails_open_witness :
    specDuplicateExists [{ id := 0, data := mkInsertData u0 "D1" adA, updated_at := Option.none }]
        adA.full_name adA.date_of_birth (some "D1") = true
    ∧ (register_athlete ctx0 adA
        ⟨[{ id := 0, data := mkInsertData u0 "D1" adA, updated_at := Option.none }],
         [], 5, [Option.some "storage down"], [], [], []⟩).1
      = OpResult.success { id := 5, data := mkInsertData u0 "D1" adA, updated_at := Option.none } := by
  refine ⟨by decide, ?_⟩
  exact C10_duplicate_check_fails_open.2.2 u0 (some "Dojo One") "D1" adA
    [{ id := 0, data := mkInsertData u0 "D1" adA, updated_at := Option.none }]
    [] 5 [] [] "storage down" (by decide) (by decide)

/-- C7: delete_athlete fetches the full current record before deleting;
when no row with the id exists it fails with the not-found error and
leaves the state untouched (no delete, no audit write); otherwise it
removes the row and writes a DELETE audit entry whose payload is the
complete pre-delete record. -/
theorem C7_delete_snapshot_then_delete :
    ∀ (u : User) (c : Coach) (aid : Nat) (nm : String) ath aud nid wl,
      (ath.filter (fun r => r.id == aid) = [] →
        delete_athlete { hasSession := true, user := some u, coach := some c } aid nm
            ⟨ath, aud, nid, [], [], [], wl⟩
          = (DelResult.failure "Athlete not found", ⟨ath, aud, nid, [], [], [], wl⟩))
      ∧ (∀ row rest, ath.filter (fun r => r.id == aid) = row :: rest →
        delete_athlete { hasSession := true, user := some u, coach := some c } aid nm
            ⟨ath, aud, nid, [], [], [], wl⟩
          = (DelResult.ok,
             ⟨ath.filter (fun r => !(r.id == aid)),
              aud ++ [{ action := "DELETE", athlete_data := AuditPayload.row row,
                        coach_id := u.id, coach_email := u.email,
                        dojo_name := c.dojo_name.getD "Unknown" }],
              nid, [], [], [], wl⟩)) := by
  intro u c aid nm ath aud nid wl
  constructor
  · intro h
    simp [delete_athlete, World.popSelect, h]
  · intro row rest h
    simp [delete_athlete, World.popSelect, World.popWrite, h, create_audit_log, World.popAudit]

/-- Witness for C7: deleting a missing id leaves the world unchanged, and
deleting an existing row removes it and audits the pre-delete record. -/
theorem C7_delete_snapshot_then_delete_witness :
    (delete_athlete ctx0 9 "Ann Lee"
        ⟨[{ id := 5, data := mkInsertData u0 "D1" adA, updated_at := Option.none }], [], 6, [], [], [], []⟩
      = (DelResult.failure "Athlete not found",
         ⟨[{ id := 5, data := mkInsertData u0 "D1" adA, updated_at := Option.none }], [], 6, [], [], [], []⟩))
    ∧ (delete_athlete ctx0 5 "Ann Lee"
        ⟨[{ id := 5, data := mkInsertData u0 "D1" adA, updated_at := Option.none }], [], 6, [], [], [], []⟩
      = (DelResult.ok,
         ⟨[],
          [{ action := "DELETE",
             athlete_data := AuditPayload.row { id := 5, data := mkInsertData u0 "D1" adA, updated_at := Option.none },
             coach_id := u0.id, coach_email := u0.email, dojo_name := "Dojo One" }],
          6, [], [], [], []⟩)) := by
  constructor
  · exact (C7_delete_snapshot_then_delete u0 c0 9 "Ann Lee"
      [{ id := 5, data := mkInsertData u0 "D1" adA, updated_at := Option.none }] [] 6 []).1 (by decide)
  · exact (C7_delete_snapshot_then_delete u0 c0 5 "Ann Lee"
      [{ id := 5, data := mkInsertData u0 "D1" adA, updated_at := Option.none }] [] 6 []).2
      { id := 5, data := mkInsertData u0 "D1" adA, updated_at := Option.none } [] (by decide)

/-- C8: update_athlete stamps the update timestamp into the submitted
partial field set, persists exactly that stamped set to the matching rows,
and writes an UPDATE audit entry whose payload is the athlete id together
with that same stamped change set and nothing else (no before or after
snapshot of the stored record). -/
theorem C8_update_changes_audit :
    ∀ (u : User) (c : Coach) (now : String) (aid : Nat) (uf : UpdateFields)
      ath aud nid wl row rest,
      ath.filter (fun r => r.id == aid) = row :: rest →
      update_athlete { hasSession := true, user := some u, coach := some c } now aid uf
          ⟨ath, aud, nid, [], [], [], wl⟩
        = (OpResult.success (applyUpdate row { uf with updated_at := some now }),
           ⟨ath.map (fun x => if x.id == aid then applyUpdate x { uf with updated_at := some now } else x),
            aud ++ [{ action := "UPDATE",
                      athlete_data := AuditPayload.updateChanges aid { uf with updated_at := some now },
                      coach_id := u.id, coach_email := u.email,
                      dojo_name := c.dojo_name.getD "Unknown" }],
            nid, [], [], [], wl⟩) := by
  intro u c now aid uf ath aud nid wl row rest h
  simp [update_athlete, World.popWrite, h, create_audit_log, World.popAudit]

/-- Witness for C8 at a concrete row and partial update of the belt rank:
the persisted set and the audit payload both carry exactly the submitted
change plus the stamped timestamp. -/
theorem C8_update_changes_audit_witness :
    update_athlete ctx0 "2025-01-02T03:04:05" 5
        { full_name := Option.none, gender := Option.none, belt_rank := some "Blue",
          weight_kg := Option.none, competition_day := Option.none, kata_event := Option.none,
          kumite_event := Option.none, updated_at := Option.none }
        ⟨[{ id := 5, data := mkInsertData u0 "D1" adA, updated_at := Option.none }], [], 6, [], [], [], []⟩
      = (OpResult.success (applyUpdate { id := 5, data := mkInsertData u0 "D1" adA, updated_at := Option.none }
          { full_name := Option.none, gender := Option.none, belt_rank := some "Blue",
            weight_kg := Option.none, competition_day := Option.none, kata_event := Option.none,
            kumite_event := Option.none, updated_at := some "2025-01-02T03:04:05" }),
         ⟨[applyUpdate { id := 5, data := mkInsertData u0 "D1" adA, updated_at := Option.none }
            { full_name := Option.none, gender := Option.none, belt_rank := some "Blue",
              weight_kg := Option.none, competition_day := Option.none, kata_event := Option.none,
              kumite_event := Option.none, updated_at := some "2025-01-02T03:04:05" }],
          [{ action := "UPDATE",
             athlete_data := AuditPayload.updateChanges 5
               { full_name := Option.none, gender := Option.none, belt_rank := some "Blue",
                 weight_kg := Option.none, competition_day := Option.none, kata_event := Option.none,
                 kumite_event := Option.none, updated_at := some "2025-01-02T03:04:05" },
             coach_id := u0.id, coach_email := u0.email, dojo_name := "Dojo One" }],
          6, [], [], [], []⟩) := by
  have h := C8_update_changes_audit u0 c0 "2025-01-02T03:04:05" 5
    { full_name := Option.none, gender := Option.none, belt_rank := some "Blue",
      weight_kg := Option.none, competition_day := Option.none, kata_event := Option.none,
      kumite_event := Option.none, updated_at := Option.none }
    [{ id := 5, data := mkInsertData u0 "D1" adA, updated_at := Option.none }] [] 6 []
    { id := 5, data := mkInsertData u0 "D1" adA, updated_at := Option.none } [] (by decide)
  simpa using h

/-- Lemma: a pattern is found inside any character list that contains it
as a contiguous segment. -/
lemma charsStartWith_self_append (p t : List Char) : charsStartWith p (p ++ t) = true := by
  induction p with
  | nil => rfl
  | cons c cs ih => simp [charsStartWith, ih]

lemma charsContain_nil_pat (l : List Char) : charsContain l [] = true := by
  cases l with
  | nil => rfl
  | cons c cs => simp [charsContain, charsStartWith]

lemma charsContain_append (a p b : List Char) : charsContain (a ++ (p ++ b)) p = true := by
  induction a with
  | nil =>
    cases p with
    | nil => simpa using charsContain_nil_pat b
    | cons c cs =>
      have h := charsStartWith_self_append (c :: cs) b
      simp only [List.nil_append, charsContain, List.append_eq, List.cons_append] at *
      rw [h]
      rfl
  | cons x xs ih =>
    simp only [List.cons_append, charsContain, List.append_eq] at *
    rw [ih]
    simp

/-- A string of the form (a ++ p) ++ b contains p. -/
lemma strContains_mid (a p b : String) : strContains ((a ++ p) ++ b) p = true := by
  have h1 : ((a ++ p) ++ b).toList = a.toList ++ (p.toList ++ b.toList) := by
    simp [String.toList, List.append_assoc]
  simp only [strContains, h1]
  exact charsContain_append a.toList p.toList b.toList

/-- C9: when the insert inside register_athlete raises a storage error
whose message mentions a duplicate key or unique constraint, the operation
returns the duplicate-error outcome naming the conflicting athlete (the
formatted duplicate message, which contains the athlete's name), not the
raw storage error. -/
theorem C9_unique_constraint_backstop :
    ∀ (u : User) (dn : Option String) (D : String) (ad : AthleteInput)
      ath aud nid wfrest af wl msg,
      truthyS (some D) = true →
      specDuplicateExists ath ad.full_name ad.date_of_birth (some D) = false →
      (strContains (strLower msg) "duplicate key" || strContains (strLower msg) "unique constraint") = true →
      register_athlete
          { hasSession := true, user := some u, coach := some { dojo_id := some D, dojo_name := dn } }
          ad ⟨ath, aud, nid, [], CallOutcome.raise msg :: wfrest, af, wl⟩
        = (OpResult.failure (dupBackstopMsg ad.full_name), ⟨ath, aud, nid, [], wfrest, af, wl⟩)
      ∧ strContains (dupBackstopMsg ad.full_name) ad.full_name = true := by
  intro u dn D ad ath aud nid wfrest af wl msg hD hdup hkey
  constructor
  · simp [register_athlete, check_duplicate_athlete, World.popSelect, World.popWrite, hD,
      specDup_eq, hdup, hkey]
  · unfold dupBackstopMsg
    rw [show "Athlete " ++ apos ++ ad.full_name ++ apos ++ " already exists."
        = (("Athlete " ++ apos) ++ ad.full_name) ++ (apos ++ " already exists.") from by
      simp [String.append_assoc]]
    exact strContains_mid ("Athlete " ++ apos) ad.full_name (apos ++ " already exists.")

/-- Witness for C9: a concrete unique-constraint exception message is
translated into the duplicate message naming the athlete. -/
theorem C9_unique_constraint_backstop_witness :
    register_athlete ctx0 adA
        ⟨[], [], 1, [],
         [CallOutcome.raise "ERROR: duplicate key value violates unique constraint athletes_pkey"],
         [], []⟩
      = (OpResult.failure (dupBackstopMsg "Ann Lee"), ⟨[], [], 1, [], [], [], []⟩) := by
  have h := C9_unique_constraint_backstop u0 (some "Dojo One") "D1" adA [] [] 1 [] [] []
    "ERROR: duplicate key value violates unique constraint athletes_pkey"
    (by decide) (by decide) (by decide)
  exact h.1

/-- Validation facts about the concrete fixtures, in kernel-reducible
form. -/
lemma valid_adA : (validate_athlete_data d2025 adA).1 = true := by
  simp only [adA, validate_athlete_data, athleteChecks, validate_dob_eval]
  decide

lemma invalid_adBad : (validate_athlete_data d2025 adBad).1 = false := by
  simp only [adBad, validate_athlete_data, athleteChecks, validate_dob_eval]
  decide

/-- Helper: with a live session and no pending select fault the duplicate
check evaluates to the match predicate and leaves the world unchanged. -/
lemma check_dup_eval (ou : Option User) (oc : Option Coach) (n : String) (d dj : Option String)
    (ath : List AthleteRow) (aud : List AuditEntry) (nid : Nat) (wf : List CallOutcome)
    (af : List CallOutcome) (wl : List String) :
    check_duplicate_athlete { hasSession := true, user := ou, coach := oc } n d dj
        ⟨ath, aud, nid, [], wf, af, wl⟩
      = (specDuplicateExists ath n d dj, ⟨ath, aud, nid, [], wf, af, wl⟩) := by
  simp [check_duplicate_athlete, World.popSelect, specDup_eq]

/-- Helper: full evaluation of register_athlete in an authenticated dojo
context with no pending storage faults. -/
lemma register_eval (u : User) (dn : Option String) (D : String) (ad : AthleteInput)
    (ath : List AthleteRow) (aud : List AuditEntry) (nid : Nat) (wl : List String)
    (hD : truthyS (some D) = true) :
    register_athlete
        { hasSession := true, user := some u, coach := some { dojo_id := some D, dojo_name := dn } }
        ad ⟨ath, aud, nid, [], [], [], wl⟩
      = if specDuplicateExists ath ad.full_name ad.date_of_birth (some D)
        then (OpResult.failure (dupPrecheckMsg ad.full_name), ⟨ath, aud, nid, [], [], [], wl⟩)
        else
          (OpResult.success { id := nid, data := mkInsertData u D ad, updated_at := Option.none },
           ⟨ath ++ [{ id := nid, data := mkInsertData u D ad, updated_at := Option.none }],
            aud ++ [{ action := "REGISTER",
                      athlete_data := AuditPayload.registerData (mkInsertData u D ad),
                      coach_id := u.id, coach_email := u.email, dojo_name := dn.getD "Unknown" }],
            nid + 1, [], [], [], wl⟩) := by
  cases hdup : specDuplicateExists ath ad.full_name ad.date_of_birth (some D) with
  | true =>
    have hAny : ath.any (dupQueryMatch ad.full_name ad.date_of_birth (some D)) = true := by
      rw [specDup_eq]; exact hdup
    simp [register_athlete, check_duplicate_athlete, World.popSelect, hD, hAny]
  | false =>
    have hAny : ath.any (dupQueryMatch ad.full_name ad.date_of_birth (some D)) = false := by
      rw [specDup_eq]; exact hdup
    simp [register_athlete, check_duplicate_athlete, World.popSelect, World.popWrite,
      create_audit_log, World.popAudit, hD, hAny]

/-- Helper: the result component of register_athlete, valid for any
pending audit-fault queue. -/
lemma register_result_eval (u : User) (dn : Option String) (D : String) (ad : AthleteInput)
    (ath : List AthleteRow) (aud : List AuditEntry) (nid : Nat) (af : List CallOutcome)
    (wl : List String) (hD : truthyS (some D) = true) :
    (register_athlete
        { hasSession := true, user := some u, coach := some { dojo_id := some D, dojo_name := dn } }
        ad ⟨ath, aud, nid, [], [], af, wl⟩).1
      = if specDuplicateExists ath ad.full_name ad.date_of_birth (some D)
        then OpResult.failure (dupPrecheckMsg ad.full_name)
        else OpResult.success { id := nid, data := mkInsertData u D ad, updated_at := Option.none } := by
  cases hdup : specDuplicateExists ath ad.full_name ad.date_of_birth (some D) with
  | true =>
    have hAny : ath.any (dupQueryMatch ad.full_name ad.date_of_birth (some D)) = true := by
      rw [specDup_eq]; exact hdup
    simp [register_athlete, check_duplicate_athlete, World.popSelect, hD, hAny]
  | false =>
    have hAny : ath.any (dupQueryMatch ad.full_name ad.date_of_birth (some D)) = false := by
      rw [specDup_eq]; exact hdup
    simp [register_athlete, check_duplicate_athlete, World.popSelect, World.popWrite, hD, hAny]

/-- Helper: the freshly inserted row is a match for the same name, date of
birth and dojo. -/
lemma dupQueryMatch_inserted (u : User) (D : String) (ad : AthleteInput) (nid : Nat)
    (hD : truthyS (some D) = true) :
    dupQueryMatch ad.full_name ad.date_of_birth (some D)
        { id := nid, data := mkInsertData u D ad, updated_at := Option.none } = true := by
  simp [dupQueryMatch, mkInsertData, hD]

/-- Helper: the inserted row does not match a query scoped to a different
dojo. -/
lemma dupQueryMatch_other_dojo (u : User) (D D2 : String) (ad : AthleteInput) (nid : Nat)
    (hD2 : truthyS (some D2) = true) (hne : (D == D2) = false) :
    dupQueryMatch ad.full_name ad.date_of_birth (some D2)
        { id := nid, data := mkInsertData u D ad, updated_at := Option.none } = false := by
  simp [dupQueryMatch, mkInsertData, truthyS]
  constructor
  · intro h
    subst h
    simp [truthyS] at hD2
  · intro h
    subst h
    simp at hne

/-- Helper: appending one row to the table extends the match predicate
pointwise. -/
lemma specDup_append_one (rows : List AthleteRow) (r : AthleteRow) (n : String)
    (d dj : Option String) :
    specDuplicateExists (rows ++ [r]) n d dj
      = (specDuplicateExists rows n d dj || dupQueryMatch n d dj r) := by
  unfold specDuplicateExists
  rw [List.any_append]
  simp [dupQueryMatch]

/-- C5: with a live session and no storage fault the duplicate check
returns true exactly when a stored row matches the trimmed name, the date
of birth and (when a dojo id is present) the dojo; consequently
registering an identical (name, DOB) pair twice into the same dojo
succeeds once and fails the second time with the duplicate error, while
registering the same pair into a different dojo still succeeds. -/
theorem C5_duplicate_scoping :
    (∀ ou oc n d dj ath aud nid wf af wl,
      check_duplicate_athlete { hasSession := true, user := ou, coach := oc } n d dj
          ⟨ath, aud, nid, [], wf, af, wl⟩
        = (specDuplicateExists ath n d dj, ⟨ath, aud, nid, [], wf, af, wl⟩))
    ∧ (∀ (u : User) (dn : Option String) (D : String) (ad : AthleteInput) ath aud nid wl,
      truthyS (some D) = true →
      specDuplicateExists ath ad.full_name ad.date_of_birth (some D) = false →
      register_athlete
          { hasSession := true, user := some u, coach := some { dojo_id := some D, dojo_name := dn } }
          ad ⟨ath, aud, nid, [], [], [], wl⟩
        = (OpResult.success { id := nid, data := mkInsertData u D ad, updated_at := Option.none },
           ⟨ath ++ [{ id := nid, data := mkInsertData u D ad, updated_at := Option.none }],
            aud ++ [{ action := "REGISTER",
                      athlete_data := AuditPayload.registerData (mkInsertData u D ad),
                      coach_id := u.id, coach_email := u.email, dojo_name := dn.getD "Unknown" }],
            nid + 1, [], [], [], wl⟩)
      ∧ (∀ aud2 nid2 af2 wl2,
        (register_athlete
            { hasSession := true, user := some u, coach := some { dojo_id := some D, dojo_name := dn } }
            ad ⟨ath ++ [{ id := nid, data := mkInsertData u D ad, updated_at := Option.none }],
               aud2, nid2, [], [], af2, wl2⟩).1
          = OpResult.failure (dupPrecheckMsg ad.full_name)))
    ∧ (∀ (u u2 : User) (dn2 : Option String) (D D2 : String) (ad : AthleteInput)
        ath nid aud3 nid3 af3 wl3,
      truthyS (some D2) = true →
      (D == D2) = false →
      specDuplicateExists ath ad.full_name ad.date_of_birth (some D2) = false →
      (register_athlete
          { hasSession := true, user := some u2, coach := some { dojo_id := some D2, dojo_name := dn2 } }
          ad ⟨ath ++ [{ id := nid, data := mkInsertData u D ad, updated_at := Option.none }],
             aud3, nid3, [], [], af3, wl3⟩).1
        = OpResult.success { id := nid3, data := mkInsertData u2 D2 ad, updated_at := Option.none }) := by
  refine ⟨?_, ?_, ?_⟩
  · intro ou oc n d dj ath aud nid wf af wl
    exact check_dup_eval ou oc n d dj ath aud nid wf af wl
  · intro u dn D ad ath aud nid wl hD hdup
    constructor
    · rw [register_eval u dn D ad ath aud nid wl hD, hdup]
      rfl
    · intro aud2 nid2 af2 wl2
      rw [register_result_eval u dn D ad _ aud2 nid2 af2 wl2 hD,
        specDup_append_one, hdup, dupQueryMatch_inserted u D ad nid hD]
      rfl
  · intro u u2 dn2 D D2 ad ath nid aud3 nid3 af3 wl3 hD2 hne hdup2
    rw [register_result_eval u2 dn2 D2 ad _ aud3 nid3 af3 wl3 hD2,
      specDup_append_one, hdup2, dupQueryMatch_other_dojo u D D2 ad nid hD2 hne]
    rfl


/-- Witness for C5: concrete double registration of the same athlete into
dojo D1 fails the second time, while the same pair goes into dojo D2. -/
theorem C5_duplicate_scoping_witness :
    (register_athlete ctx0 adA emptyWorld
      = (OpResult.success { id := 1, data := mkInsertData u0 "D1" adA, updated_at := Option.none },
         ⟨[{ id := 1, data := mkInsertData u0 "D1" adA, updated_at := Option.none }],
          [{ action := "REGISTER", athlete_data := AuditPayload.registerData (mkInsertData u0 "D1" adA),
             coach_id := u0.id, coach_email := u0.email, dojo_name := "Dojo One" }],
          2, [], [], [], []⟩))
    ∧ (register_athlete ctx0 adA
        ⟨[] ++ [{ id := 1, data := mkInsertData u0 "D1" adA, updated_at := Option.none }],
         [{ action := "REGISTER", athlete_data := AuditPayload.registerData (mkInsertData u0 "D1" adA),
            coach_id := u0.id, coach_email := u0.email, dojo_name := "Dojo One" }],
         2, [], [], [], []⟩).1
      = OpResult.failure (dupPrecheckMsg "Ann Lee")
    ∧ (register_athlete
        { hasSession := true, user := some u0,
          coach := some { dojo_id := some "D2", dojo_name := some "Dojo Two" } }
        adA
        ⟨[] ++ [{ id := 1, data := mkInsertData u0 "D1" adA, updated_at := Option.none }],
         [], 2, [], [], [], []⟩).1
      = OpResult.success { id := 2, data := mkInsertData u0 "D2" adA, updated_at := Option.none } := by
  have hmain := C5_duplicate_scoping.2.1 u0 (some "Dojo One") "D1" adA [] [] 1 []
    (by decide) (by decide)
  refine ⟨by simpa using hmain.1, ?_, ?_⟩
  · have h := hmain.2
      [{ action := "REGISTER", athlete_data := AuditPayload.registerData (mkInsertData u0 "D1" adA),
         coach_id := u0.id, coach_email := u0.email, dojo_name := "Dojo One" }]
      2 [] []
    have hn : adA.full_name = "Ann Lee" := rfl
    rw [hn] at h
    exact h
  · have h := C5_duplicate_scoping.2.2 u0 u0 (some "Dojo Two") "D1" "D2" adA
      [] 1 [] 2 [] [] (by decide) (by decide) (by decide)
    exact h

/-- C1: in the single-registration flow the record is validated before any
write: an invalid record makes the operation fail with the full error
list, touching neither the athletes table nor the audit log (and consuming
no storage call); a valid record proceeds through the duplicate check to
the insert and the REGISTER audit write, and on success the stored record
is returned. -/
theorem C1_register_validation_gate :
    (∀ hs ou oc today ad ath aud nid sf wf af wl,
      (validate_athlete_data today ad).1 = false →
      single_registration_flow { hasSession := hs, user := ou, coach := oc } today ad
          ⟨ath, aud, nid, sf, wf, af, wl⟩
        = (FlowResult.invalid (validate_athlete_data today ad).2, ⟨ath, aud, nid, sf, wf, af, wl⟩))
    ∧ (∀ (u : User) (dn : Option String) (D : String) today ad ath aud nid wl,
      (validate_athlete_data today ad).1 = true →
      truthyS (some D) = true →
      specDuplicateExists ath ad.full_name ad.date_of_birth (some D) = false →
      single_registration_flow
          { hasSession := true, user := some u, coach := some { dojo_id := some D, dojo_name := dn } }
          today ad ⟨ath, aud, nid, [], [], [], wl⟩
        = (FlowResult.registered { id := nid, data := mkInsertData u D ad, updated_at := Option.none },
           ⟨ath ++ [{ id := nid, data := mkInsertData u D ad, updated_at := Option.none }],
            aud ++ [{ action := "REGISTER",
                      athlete_data := AuditPayload.registerData (mkInsertData u D ad),
                      coach_id := u.id, coach_email := u.email, dojo_name := dn.getD "Unknown" }],
            nid + 1, [], [], [], wl⟩)) := by
  constructor
  · intro hs ou oc today ad ath aud nid sf wf af wl hv
    simp [single_registration_flow, hv]
  · intro u dn D today ad ath aud nid wl hv hD hdup
    have h1 : ath.any (dupQueryMatch ad.full_name ad.date_of_birth (some D)) = false := by
      rw [specDup_eq]; exact hdup
    simp [single_registration_flow, hv, register_athlete, check_duplicate_athlete,
      World.popSelect, World.popWrite, create_audit_log, World.popAudit, hD, h1]

/-- Witness for C1: an invalid record is rejected with the full error list
and no state change; a valid record is inserted, audited and returned. -/
theorem C1_register_validation_gate_witness :
    single_registration_flow ctx0 d2025 adBad emptyWorld
      = (FlowResult.invalid (validate_athlete_data d2025 adBad).2, emptyWorld)
    ∧ single_registration_flow ctx0 d2025 adA emptyWorld
      = (FlowResult.registered { id := 1, data := mkInsertData u0 "D1" adA, updated_at := Option.none },
         ⟨[{ id := 1, data := mkInsertData u0 "D1" adA, updated_at := Option.none }],
          [{ action := "REGISTER", athlete_data := AuditPayload.registerData (mkInsertData u0 "D1" adA),
             coach_id := u0.id, coach_email := u0.email, dojo_name := "Dojo One" }],
          2, [], [], [], []⟩) := by
  constructor
  · exact C1_register_validation_gate.1 true (some u0) (some c0) d2025 adBad
      [] [] 1 [] [] [] [] invalid_adBad
  · have h := C1_register_validation_gate.2 u0 (some "Dojo One") "D1" d2025 adA
      [] [] 1 [] valid_adA (by decide) (by decide)
    simpa using h

/-- Reference recursion for the bulk_register_athletes loop on a world
with no pending storage faults: per-item results, success and failure
counts, resulting table and id counter. -/
def bulkRef (u : User) (dojo : String) :
    List AthleteInput → List AthleteRow → Nat →
    List BulkItem × Nat × Nat × List AthleteRow × Nat
  | [], ath, nid => ([], 0, 0, ath, nid)
  | ad :: rest, ath, nid =>
    if specDuplicateExists ath ad.full_name ad.date_of_birth (some dojo) then
      let r := bulkRef u dojo rest ath nid
      ({ name := ad.full_name, success := false, error := some "Duplicate - already exists" } :: r.1,
       r.2.1, r.2.2.1 + 1, r.2.2.2.1, r.2.2.2.2)
    else
      let row : AthleteRow := { id := nid, data := mkInsertData u dojo ad, updated_at := Option.none }
      let r := bulkRef u dojo rest (ath ++ [row]) (nid + 1)
      ({ name := ad.full_name, success := true, error := Option.none } :: r.1,
       r.2.1 + 1, r.2.2.1, r.2.2.2.1, r.2.2.2.2)

/-- The bulk loop fold computes bulkRef, carries the audit queue and the
audit table through untouched, and keeps the empty fault queues empty. -/
lemma bulkFold_ref (ctx : Ctx) (u : User) (dojo : String) (hs : ctx.hasSession = true) :
    ∀ (batch : List AthleteInput) (res : List BulkItem) (s f : Nat)
      (ath : List AthleteRow) (aud : List AuditEntry) (nid : Nat)
      (af : List CallOutcome) (wl : List String),
      batch.foldl (bulkStep ctx u dojo) (res, s, f, ⟨ath, aud, nid, [], [], af, wl⟩)
        = (res ++ (bulkRef u dojo batch ath nid).1,
           s + (bulkRef u dojo batch ath nid).2.1,
           f + (bulkRef u dojo batch ath nid).2.2.1,
           ⟨(bulkRef u dojo batch ath nid).2.2.2.1, aud, (bulkRef u dojo batch ath nid).2.2.2.2,
            [], [], af, wl⟩) := by
  intro batch
  induction batch with
  | nil =>
    intro res s f ath aud nid af wl
    simp [bulkRef]
  | cons ad rest ih =>
    intro res s f ath aud nid af wl
    rw [List.foldl_cons]
    cases hdup : specDuplicateExists ath ad.full_name ad.date_of_birth (some dojo) with
    | true =>
      have hAny : ath.any (dupQueryMatch ad.full_name ad.date_of_birth (some dojo)) = true := by
        rw [specDup_eq]; exact hdup
      have hstep : bulkStep ctx u dojo (res, s, f, ⟨ath, aud, nid, [], [], af, wl⟩) ad
          = (res ++ [{ name := ad.full_name, success := false,
                       error := some "Duplicate - already exists" }],
             s, f + 1, ⟨ath, aud, nid, [], [], af, wl⟩) := by
        simp [bulkStep, check_duplicate_athlete, hs, World.popSelect, hAny]
      rw [hstep, ih]
      simp [bulkRef, hdup, Prod.mk.injEq]
      omega
    | false =>
      have hAny : ath.any (dupQueryMatch ad.full_name ad.date_of_birth (some dojo)) = false := by
        rw [specDup_eq]; exact hdup
      have hstep : bulkStep ctx u dojo (res, s, f, ⟨ath, aud, nid, [], [], af, wl⟩) ad
          = (res ++ [{ name := ad.full_name, success := true, error := Option.none }],
             s + 1, f,
             ⟨ath ++ [{ id := nid, data := mkInsertData u dojo ad, updated_at := Option.none }],
              aud, nid + 1, [], [], af, wl⟩) := by
        simp [bulkStep, check_duplicate_athlete, hs, World.popSelect, World.popWrite, hAny]
      rw [hstep, ih]
      simp [bulkRef, hdup, Prod.mk.injEq]
      omega

/-- Invariants of the bulk reference recursion: per-item results keep the
input order and names, every record is counted exactly once, each success
inserts exactly one row and bumps the id counter, and the success count
equals the number of successful items. -/
lemma bulkRef_spec (u : User) (dojo : String) :
    ∀ (batch : List AthleteInput) (ath : List AthleteRow) (nid : Nat),
      ((bulkRef u dojo batch ath nid).1.map (fun i => i.name)
          = batch.map (fun a => a.full_name))
      ∧ (bulkRef u dojo batch ath nid).2.1 + (bulkRef u dojo batch ath nid).2.2.1 = batch.length
      ∧ (bulkRef u dojo batch ath nid).2.2.2.1.length
          = ath.length + (bulkRef u dojo batch ath nid).2.1
      ∧ ((bulkRef u dojo batch ath nid).1.filter (fun i => i.success)).length
          = (bulkRef u dojo batch ath nid).2.1 := by
  intro batch
  induction batch with
  | nil => intro ath nid; simp [bulkRef]
  | cons ad rest ih =>
    intro ath nid
    cases hdup : specDuplicateExists ath ad.full_name ad.date_of_birth (some dojo) with
    | true =>
      obtain ⟨h1, h2, h3, h4⟩ := ih ath nid
      refine ⟨?_, ?_, ?_, ?_⟩
      · simp [bulkRef, hdup, h1]
      · simp [bulkRef, hdup]
        omega
      · simp [bulkRef, hdup, h3]
      · simp [bulkRef, hdup, h4]
    | false =>
      obtain ⟨h1, h2, h3, h4⟩ := ih
        (ath ++ [{ id := nid, data := mkInsertData u dojo ad, updated_at := Option.none }]) (nid + 1)
      refine ⟨?_, ?_, ?_, ?_⟩
      · simp [bulkRef, hdup, h1]
      · simp [bulkRef, hdup]
        omega
      · simp only [List.length_append, List.length_cons, List.length_nil] at h3
        simp [bulkRef, hdup, h3]
        omega
      · simp [bulkRef, hdup, h4]

/-- C6 (amended): bulk_register_athletes applies the duplicate check and
insert (but no validation) to each input record independently and in the
given order, so one record's failure does not abort the batch: the
per-item results keep the batch order and names, every record is counted
as a success or a failure, exactly one athlete row is inserted per
success, and exactly one BULK_REGISTER audit entry whose payload count
equals the success count is written when at least one record succeeds
(none when none succeeds). -/
theorem C6_bulk_amended :
    ∀ (u : User) (dn : Option String) (D : String) (batch : List AthleteInput)
      (ath : List AthleteRow) (aud : List AuditEntry) (nid : Nat) (wl : List String),
      truthyS (some D) = true →
      ∃ s f items ath2 nid2,
        bulk_register_athletes
            { hasSession := true, user := some u, coach := some { dojo_id := some D, dojo_name := dn } }
            batch ⟨ath, aud, nid, [], [], [], wl⟩
          = (BulkResult.summary s f items,
             ⟨ath2,
              (if 0 < s then
                aud ++ [{ action := "BULK_REGISTER",
                          athlete_data := AuditPayload.bulk s
                            ((items.filter (fun i => i.success)).map (fun i => i.name)),
                          coach_id := u.id, coach_email := u.email,
                          dojo_name := dn.getD "Unknown" }]
               else aud),
              nid2, [], [], [], wl⟩)
        ∧ items.map (fun i => i.name) = batch.map (fun a => a.full_name)
        ∧ s + f = batch.length
        ∧ ath2.length = ath.length + s
        ∧ (items.filter (fun i => i.success)).length = s := by
  intro u dn D batch ath aud nid wl hD
  obtain ⟨h1, h2, h3, h4⟩ := bulkRef_spec u D batch ath nid
  refine ⟨(bulkRef u D batch ath nid).2.1, (bulkRef u D batch ath nid).2.2.1,
    (bulkRef u D batch ath nid).1, (bulkRef u D batch ath nid).2.2.2.1,
    (bulkRef u D batch ath nid).2.2.2.2, ?_, h1, h2, h3, h4⟩
  have hfold := bulkFold_ref
    { hasSession := true, user := some u, coach := some { dojo_id := some D, dojo_name := dn } }
    u D rfl batch [] 0 0 ath aud nid [] wl
  by_cases hpos : 0 < (bulkRef u D batch ath nid).2.1
  · simp [bulk_register_athletes, hD, hfold, hpos, create_audit_log, World.popAudit]
  · simp [bulk_register_athletes, hD, hfold, hpos]

def adB : AthleteInput :=
  { full_name := "Bob Kim", date_of_birth := some "2011-06-04", gender := "Male",
    belt_rank := "Blue", weight_kg := .none, competition_day := "Day 2",
    kata_event := true, kumite_event := true }

def adC : AthleteInput :=
  { full_name := "Cara Lin", date_of_birth := some "2013-02-11", gender := "Unknown",
    belt_rank := "Green", weight_kg := .none, competition_day := "Day 1",
    kata_event := true, kumite_event := false }

def adE : AthleteInput :=
  { full_name := "Eve Fox", date_of_birth := some "2010-09-30", gender := "Female",
    belt_rank := "Purple", weight_kg := .none, competition_day := "Both",
    kata_event := false, kumite_event := true }

/-- A batch of 5 records where record 3 is invalid (gender fails
validation) and record 4 duplicates record 1. -/
def batch5 : List AthleteInput := [adA, adB, adC, adA, adE]

/-- C6 counterexample: on the claim's own batch shape (record 3 invalid,
record 4 duplicating record 1) bulk_register_athletes performs no
validation, inserts the invalid record, and returns successful=4,
failed=1, 4 new athlete rows and one BULK_REGISTER audit entry with
payload count 4 — not successful=3, failed=2, 3 rows and count 3. -/
theorem C6_bulk_counterexample :
    (validate_athlete_data d2025 adC).1 = false
    ∧ bulkCounts (bulk_register_athletes ctx0 batch5 emptyWorld).1 = some (4, 1)
    ∧ (bulk_register_athletes ctx0 batch5 emptyWorld).2.athletes.length = 4
    ∧ (bulk_register_athletes ctx0 batch5 emptyWorld).2.audits.map (fun e => e.athlete_data)
        = [AuditPayload.bulk 4 ["Ann Lee", "Bob Kim", "Cara Lin", "Eve Fox"]] := by
  refine ⟨?_, by decide, by decide, by decide⟩
  simp only [adC, validate_athlete_data, athleteChecks, validate_dob_eval]
  decide

/-- Witness for C6 (amended) at the concrete 5-record batch. -/
theorem C6_bulk_amended_witness :
    ∃ s f items ath2 nid2,
      bulk_register_athletes
          { hasSession := true, user := some u0,
            coach := some { dojo_id := some "D1", dojo_name := some "Dojo One" } }
          batch5 ⟨[], [], 1, [], [], [], []⟩
        = (BulkResult.summary s f items,
           ⟨ath2,
            (if 0 < s then
              [] ++ [{ action := "BULK_REGISTER",
                       athlete_data := AuditPayload.bulk s
                         ((items.filter (fun i => i.success)).map (fun i => i.name)),
                       coach_id := u0.id, coach_email := u0.email,
                       dojo_name := (some "Dojo One").getD "Unknown" }]
             else []),
            nid2, [], [], [], []⟩)
      ∧ items.map (fun i => i.name) = batch5.map (fun a => a.full_name)
      ∧ s + f = batch5.length
      ∧ ath2.length = ([] : List AthleteRow).length + s
      ∧ (items.filter (fun i => i.success)).length = s :=
  C6_bulk_amended u0 (some "Dojo One") "D1" batch5 [] [] 1 [] (by decide)

/-- C2: audit-log write failures are swallowed.  With a live session a
raised audit insert is caught: the writer returns false, appends an
operator-visible warning, and writes no entry; and for each of the four
athlete mutations the returned result is entirely independent of the
pending audit-fault queue, so a mutation that succeeds still reports
success when its audit write fails. -/
theorem C2_audit_failures_swallowed :
    (∀ ou oc action payload cid cem dnm ath aud nid sf wf msg rest wl,
      create_audit_log { hasSession := true, user := ou, coach := oc } action payload cid cem dnm
          ⟨ath, aud, nid, sf, wf, CallOutcome.raise msg :: rest, wl⟩
        = (false, ⟨ath, aud, nid, sf, wf, rest,
            wl ++ ["Warning: Failed to create audit log: " ++ msg]⟩))
    ∧ (∀ hs ou oc ad ath aud nid wl af af',
      (register_athlete { hasSession := hs, user := ou, coach := oc } ad
          ⟨ath, aud, nid, [], [], af, wl⟩).1
        = (register_athlete { hasSession := hs, user := ou, coach := oc } ad
          ⟨ath, aud, nid, [], [], af', wl⟩).1)
    ∧ (∀ hs ou oc batch ath aud nid wl af af',
      (bulk_register_athletes { hasSession := hs, user := ou, coach := oc } batch
          ⟨ath, aud, nid, [], [], af, wl⟩).1
        = (bulk_register_athletes { hasSession := hs, user := ou, coach := oc } batch
          ⟨ath, aud, nid, [], [], af', wl⟩).1)
    ∧ (∀ hs ou oc now aid uf ath aud nid wl af af',
      (update_athlete { hasSession := hs, user := ou, coach := oc } now aid uf
          ⟨ath, aud, nid, [], [], af, wl⟩).1
        = (update_athlete { hasSession := hs, user := ou, coach := oc } now aid uf
          ⟨ath, aud, nid, [], [], af', wl⟩).1)
    ∧ (∀ hs ou oc aid nm ath aud nid wl af af',
      (delete_athlete { hasSession := hs, user := ou, coach := oc } aid nm
          ⟨ath, aud, nid, [], [], af, wl⟩).1
        = (delete_athlete { hasSession := hs, user := ou, coach := oc } aid nm
          ⟨ath, aud, nid, [], [], af', wl⟩).1) := by
  refine ⟨?_, ?_, ?_, ?_, ?_⟩
  · intro ou oc action payload cid cem dnm ath aud nid sf wf msg rest wl
    simp [create_audit_log, World.popAudit]
  · intro hs ou oc ad ath aud nid wl af af'
    cases ou with
    | none => rfl
    | some u =>
      cases oc with
      | none => rfl
      | some c =>
        obtain ⟨dj, dnm⟩ := c
        cases dj with
        | none => simp [register_athlete, truthyS]
        | some D =>
          cases hT : truthyS (some D) with
          | false => simp [register_athlete, hT]
          | true =>
            cases hs with
            | false => simp [register_athlete, hT, check_duplicate_athlete]
            | true =>
              rw [register_result_eval u dnm D ad ath aud nid af wl hT,
                register_result_eval u dnm D ad ath aud nid af' wl hT]
  · intro hs ou oc batch ath aud nid wl af af'
    cases ou with
    | none => rfl
    | some u =>
      cases oc with
      | none => rfl
      | some c =>
        obtain ⟨dj, dnm⟩ := c
        cases hT : truthyS dj with
        | false => simp [bulk_register_athletes, hT]
        | true =>
          cases hs with
          | false => simp [bulk_register_athletes, hT]
          | true =>
            have hf1 := bulkFold_ref
              { hasSession := true, user := some u, coach := some { dojo_id := dj, dojo_name := dnm } }
              u (dj.getD "") rfl batch [] 0 0 ath aud nid af wl
            have hf2 := bulkFold_ref
              { hasSession := true, user := some u, coach := some { dojo_id := dj, dojo_name := dnm } }
              u (dj.getD "") rfl batch [] 0 0 ath aud nid af' wl
            simp [bulk_register_athletes, hT, hf1, hf2]
  · intro hs ou oc now aid uf ath aud nid wl af af'
    cases ou with
    | none => rfl
    | some u =>
      cases oc with
      | none => rfl
      | some c =>
        cases hs with
        | false => simp [update_athlete]
        | true =>
          cases hm : ath.filter (fun r => r.id == aid) with
          | nil => simp [update_athlete, World.popWrite, hm]
          | cons r rest => simp [update_athlete, World.popWrite, hm]
  · intro hs ou oc aid nm ath aud nid wl af af'
    cases ou with
    | none => rfl
    | some u =>
      cases oc with
      | none => rfl
      | some c =>
        cases hs with
        | false => simp [delete_athlete]
        | true =>
          cases hm : ath.filter (fun r => r.id == aid) with
          | nil => simp [delete_athlete, World.popSelect, hm]
          | cons r rest => simp [delete_athlete, World.popSelect, World.popWrite, hm]
